import Mathlib

/-!
Verification of the CSV question-answering and visualization pipeline.

The development shallowly embeds the rule-based query handler
(`modules/basic_query_handler.py`), the visualization selector
(`modules/visualizer.py`), the remote-answer orchestrator
(`modules/llm_agent.py`) and the query orchestration of `app.py`.

Dataframes are modelled as ordered lists of named columns of cell values;
a cell is a rational number, a string, or null (NaN).  Pandas reductions
(`mean`, `max`, `min`, `value_counts`, `groupby(...).mean()`) skip null
cells, which the embedding mirrors.  Machine floats are idealized as
rationals.
-/

namespace CSVQA

/-- A cell of a dataframe: numeric, text, or null (NaN). -/
inductive Value where
  | num (q : ℚ)
  | str (s : String)
  | null
deriving DecidableEq, Repr

def Value.isNull : Value → Bool
  | .null => true
  | _ => false

def Value.isStr : Value → Bool
  | .str _ => true
  | _ => false

def Value.toQ : Value → Option ℚ
  | .num q => some q
  | _ => none

/-- Rendering of a cell inside an f-string (`str()` in Python).  Integral
numbers render without a fractional part; null renders as `nan`. -/
def Value.render : Value → String
  | .num q => if q.den = 1 then q.num.repr else q.num.repr ++ "/" ++ q.den.repr
  | .str s => s
  | .null => "nan"

/-- An in-memory dataframe: ordered named columns plus the row count. -/
structure Table where
  cols : List (String × List Value)
  nrows : ℕ
deriving DecidableEq, Repr

/-- Python `df.columns`. -/
def Table.columns (t : Table) : List String := t.cols.map Prod.fst

/-- Python `df[name]` (empty when the column is absent; the guarded source code
only reads columns it has checked for membership). -/
def Table.getCol (t : Table) (name : String) : List Value :=
  match t.cols.find? (fun c => c.1 = name) with
  | some c => c.2
  | none => []

/-- Python `name in df.columns`. -/
def Table.hasCol (t : Table) (name : String) : Bool :=
  t.columns.contains name

/-! String utilities mirroring the Python operations used by the source:
substring containment (`pat in s`), prefix test (`s.startswith(p)`). -/

/-- Tests whether `pat` occurs as a contiguous substring of `s` (character lists). -/
def hasSub (pat : List Char) : List Char → Bool
  | [] => pat.isEmpty
  | c :: rest => pat.isPrefixOf (c :: rest) || hasSub pat rest

/-- Python `pat in s`. -/
def strContains (s pat : String) : Bool := hasSub pat.toList s.toList

/-- Python `s.startswith(pre)`. -/
def pyStartsWith (s pre : String) : Bool := pre.toList.isPrefixOf s.toList

/-- Python `s.lower()` (character-list implementation; the strings this
system lowercases are ASCII). -/
def pyLower (s : String) : String := String.mk (s.toList.map Char.toLower)

/-! Sorting and distinct values, used to model `value_counts().sort_index()`
and `groupby` key ordering. -/

/-- comparison used to model the ordering of pandas indexes: numbers by
value, strings lexicographically. -/
def Value.leb : Value → Value → Bool
  | .num a, .num b => decide (a ≤ b)
  | .num _, _ => true
  | .str _, .num _ => false
  | .str a, .str b => (compare a b).isLE
  | .null, .null => true
  | .null, _ => false
  | _, .null => true

def insertSorted (le : α → α → Bool) (x : α) : List α → List α
  | [] => [x]
  | y :: ys => if le x y then x :: y :: ys else y :: insertSorted le x ys

/-- insertion sort (the ordering details are irrelevant to the claims;
only that the result is a permutation of the input matters). -/
def isort (le : α → α → Bool) (l : List α) : List α :=
  l.foldr (insertSorted le) []

/-- Models `series.value_counts().sort_index()`: null cells are dropped, distinct
values are listed in index order with their multiplicities. -/
def valueCountsSorted (col : List Value) : List (Value × ℕ) :=
  let nn := col.filter (fun v => ¬ v.isNull)
  (isort Value.leb nn.dedup).map (fun k => (k, nn.count k))

/-- Models `series.value_counts()` (no `sort_index`): distinct non-null values in
descending frequency order. -/
def valueCountsDesc (col : List Value) : List (Value × ℕ) :=
  let nn := col.filter (fun v => ¬ v.isNull)
  isort (fun a b => b.2 ≤ a.2) (nn.dedup.map (fun k => (k, nn.count k)))

/-! Aggregations (pandas reductions skip nulls). -/

def numsOf (col : List Value) : List ℚ := col.filterMap Value.toQ

/-- Models `series.mean()`; `none` models NaN for an all-null column. -/
def meanOpt (col : List Value) : Option ℚ :=
  let ns := numsOf col
  if ns.isEmpty then none else some (ns.sum / (ns.length : ℚ))

/-- Models `series.max()`. -/
def maxOpt (col : List Value) : Option ℚ := (numsOf col).max?

/-- Models `series.min()`. -/
def minOpt (col : List Value) : Option ℚ := (numsOf col).min?

/-! Number formatting: Python `f"{v:,.2f}"` and `f"{v:.2f}"`. -/

/-- digits-with-thousands-separators on a reversed digit list. -/
def commaGroupsRev : List Char → List Char
  | a :: b :: c :: d :: rest => a :: b :: c :: ',' :: commaGroupsRev (d :: rest)
  | l => l

/-- decimal rendering of a natural with `,` thousands separators. -/
def natCommas (n : ℕ) : String :=
  String.mk (commaGroupsRev (Nat.repr n).toList.reverse).reverse

/-- value rounded to hundredths, as an integer number of hundredths. -/
def round2 (x : ℚ) : ℤ := ⌊x * 100 + 1 / 2⌋

/-- two-decimal fixed-point rendering, optionally with thousands
separators, mirroring `f"{v:,.2f}"` / `f"{v:.2f}"`. -/
def fmt2 (withCommas : Bool) (x : ℚ) : String :=
  let n := (round2 |x|).toNat
  let ip := n / 100
  let fp := n % 100
  let ipStr := if withCommas then natCommas ip else Nat.repr ip
  let fpStr := (if fp < 10 then "0" else "") ++ Nat.repr fp
  (if x < 0 then "-" else "") ++ ipStr ++ "." ++ fpStr

/-- Python `f"${v:,.2f}"`, the formatting applied to `price` aggregates. -/
def formatPrice (x : ℚ) : String := "$" ++ fmt2 true x

/-- Python `f"{v:.2f}"`, the formatting applied to other numeric aggregates. -/
def formatNum (x : ℚ) : String := fmt2 false x

/-- formatting of an optional aggregate (`none` = NaN renders `nan`). -/
def formatAgg (isPrice : Bool) (v : Option ℚ) : String :=
  match v with
  | some q => if isPrice then formatPrice q else formatNum q
  | none => if isPrice then "$nan" else "nan"

/-! The column-resolution cache of `BasicQueryHandler` (`self.column_map`),
a Python dict from requested names to actual column names. -/

/-- the memoization dict `self.column_map`. -/
abbrev ColumnMap := List (String × String)

/-- dict lookup. -/
def mapLookup (m : ColumnMap) (k : String) : Option String :=
  (m.find? (fun e => e.1 = k)).map Prod.snd

/-- dict assignment `m[k] = v` (replaces an existing binding). -/
def dictSet (m : ColumnMap) (k v : String) : ColumnMap :=
  if (m.find? (fun e => e.1 = k)).isSome then
    m.map (fun e => if e.1 = k then (k, v) else e)
  else m ++ [(k, v)]

/-- Embeds `self.column_aliases` of `BasicQueryHandler.__init__`. -/
def column_aliases : List (String × List String) :=
  [("region", ["region", "location", "area", "neighborhood"]),
   ("sqft", ["sqft", "square_feet", "sq_ft", "square_footage", "size"]),
   ("garage", ["garage", "garage_spaces", "garages"]),
   ("fireplace", ["fireplace", "fireplaces"]),
   ("pool", ["pool", "has_pool"]),
   ("price", ["price", "listing_price", "sale_price", "value"])]

/-- the case-insensitive scan `for actual_col in df.columns: if
actual_col.lower() == target: ...` used by `_get_actual_column_name`. -/
def findIgnoreCase (cols : List String) (target : String) : Option String :=
  cols.find? (fun c => pyLower c = target)

/-- the alias loop of `_get_actual_column_name`: the alias list declared
for the lowercased name, each alias tried against the columns in order
(`none` both when the name has no alias list and when no alias matches,
which the source treats identically). -/
def aliasLookup (t : Table) (lower : String) : Option String :=
  match (column_aliases.find? (fun e => e.1 = lower)).map Prod.snd with
  | some aliases => aliases.findSome? (fun al => findIgnoreCase t.columns (pyLower al))
  | none => none

/-- Embeds `BasicQueryHandler._get_actual_column_name`: cached lookup, then
case-insensitive direct match, then the declared aliases in order; on
failure the requested name is returned unchanged (soft fail). -/
def getActualColumnName (m : ColumnMap) (t : Table) (colName : String) :
    String × ColumnMap :=
  match mapLookup m colName with
  | some actual => (actual, m)
  | none =>
    match findIgnoreCase t.columns (pyLower colName) with
    | some c => (c, dictSet m colName c)
    | none =>
      match aliasLookup t (pyLower colName) with
      | some c => (c, dictSet m colName c)
      | none => (colName, m)

/-- Embeds the `BasicQueryHandler._safe_groupby`-style per-group means:
`df.groupby(g)[v].mean()`.  Rows with a null key are dropped; each group
reports the mean of its non-null values. -/
def groupbyMean (t : Table) (keyCol valCol : String) :
    List (Value × Option ℚ) :=
  let pairs := ((t.getCol keyCol).zip (t.getCol valCol)).filter
    (fun p => ¬ p.1.isNull)
  (isort Value.leb (pairs.map Prod.fst).dedup).map
    (fun k => (k, meanOpt ((pairs.filter (fun p => p.1 = k)).map Prod.snd)))

/-- Embeds `BasicQueryHandler._safe_groupby`: resolve both columns, return `none`
when either is absent, otherwise the per-group means. -/
def safeGroupby (m : ColumnMap) (t : Table) (groupbyCol valCol : String) :
    Option (List (Value × Option ℚ)) × ColumnMap :=
  let r1 := getActualColumnName m t groupbyCol
  let r2 := getActualColumnName r1.2 t valCol
  if ¬ t.hasCol r1.1 then (none, r2.2)
  else if ¬ t.hasCol r2.1 then (none, r2.2)
  else (some (groupbyMean t r1.1 r2.1), r2.2)

/-! The query classifier of `BasicQueryHandler.process_query` and its six
intent handlers.  Source message strings contain apostrophes; those are
assembled through the `apos` helper below. -/

/-- the apostrophe character, as it appears inside source messages. -/
def apos : String := String.mk [Char.ofNat 39]

/-- Python join of `df.columns.tolist()` with a comma and a space. -/
def availableCols (t : Table) : String := String.intercalate ", " t.columns

/-- the could-not-find message of the average/max/min handlers, naming the requested column. -/
def msgColNotFound (col : String) (t : Table) : String :=
  "I couldn" ++ apos ++ "t find the " ++ apos ++ col ++ apos ++
    " column in your data. Available columns are: " ++ availableCols t

/-- the could-not-find message of the count/region handlers, naming the requested column. -/
def msgFeatNotFound (col : String) (t : Table) : String :=
  "I couldn" ++ apos ++ "t find a " ++ apos ++ col ++ apos ++
    " column in your data. Available columns are: " ++ availableCols t

/-- Models `re.search` of a pattern `(?:kw1|kw2|...).*?(p1|p2|...)` against a
character list: some keyword occurrence is followed, at or after its end,
by some property-name occurrence. -/
def kwThenProp (kws props : List String) : List Char → Bool
  | [] => false
  | c :: rest =>
    kws.any (fun kw => kw.toList.isPrefixOf (c :: rest) &&
      props.any (fun p => hasSub p.toList ((c :: rest).drop kw.length))) ||
    kwThenProp kws props rest

def reKwProp (kws props : List String) (q : String) : Bool :=
  kwThenProp kws props q.toList

/-- Models `re.search` of a plain alternation `(?:kw1|kw2|...)`. -/
def reAnyKw (kws : List String) (q : String) : Bool :=
  kws.any (fun kw => strContains q kw)

/-- the capture-group property names of the average/max/min patterns. -/
def aggPropsPat : List String :=
  ["price", "sqft", "bedrooms", "bathrooms", "year_built", "lot_size"]

/-- the capture-group property names of the count pattern. -/
def countPropsPat : List String :=
  ["bedrooms", "bathrooms", "garage", "fireplace", "pool"]

/-- the six query intents of `self.supported_queries`. -/
inductive Intent where
  | average | maximum | minimum | count | region | chart
deriving DecidableEq, Repr

/-- Embeds `self.supported_queries`, in declaration order (Python dicts preserve
insertion order, and `process_query` iterates `items()` in that order). -/
def supportedQueries : List (Intent × (String → Bool)) :=
  [(.average, reKwProp ["average", "avg", "mean"] aggPropsPat),
   (.maximum, reKwProp ["maximum", "max", "highest"] aggPropsPat),
   (.minimum, reKwProp ["minimum", "min", "lowest"] aggPropsPat),
   (.count, reKwProp ["count", "how many"] countPropsPat),
   (.region, reAnyKw ["region", "area", "location"]),
   (.chart, reAnyKw ["chart", "plot", "graph", "visualize", "visualization"])]

/-- the first pattern of `supported_queries` matching the (already
lowercased) query, if any. -/
def classify (q : String) : Option Intent :=
  (supportedQueries.find? (fun ip => ip.2 q)).map Prod.fst

/-- An abstract visualization request (a Python dict in the source).
`columns`/`params` model the positional legacy shape emitted by the
average/count/region handlers; `x_column`/`y_column`/`color_by` model the
named shape emitted by the chart handler and the LLM agent.  An `Option`
field is `none` when the corresponding dict key is absent. -/
structure VizInfo where
  vtype : String
  columns : Option (List String) := none
  x_column : Option String := none
  y_column : Option String := none
  color_by : Option String := none
  title : String := "Data Visualization"
  params : Option (List (String × String)) := none
deriving DecidableEq, Repr

/-- Embeds `BasicQueryHandler._handle_average_query`. -/
def handleAverage (query : String) (m : ColumnMap) (t : Table) :
    String × Option VizInfo × ColumnMap :=
  match aggPropsPat.find? (fun c => strContains query c) with
  | none =>
    ("Please specify what property you want the average of (price, sqft, bedrooms, etc.).",
     none, m)
  | some col =>
    let r := getActualColumnName m t col
    let actualCol := r.1
    let m := r.2
    if ¬ t.hasCol actualCol then (msgColNotFound col t, none, m)
    else
      let formatted := formatAgg (col = "price") (meanOpt (t.getCol actualCol))
      if strContains query "by region" || strContains query "by area" then
        let r2 := getActualColumnName m t "region"
        let regionCol := r2.1
        let m := r2.2
        if ¬ t.hasCol regionCol then
          ("The average " ++ col ++ " overall is " ++ formatted ++ ". I couldn" ++ apos ++
             "t find a " ++ apos ++ "region" ++ apos ++
             " column in your data to group by. Available columns are: " ++ availableCols t,
           none, m)
        else
          let g := safeGroupby m t "region" col
          let m := g.2
          match g.1 with
          | none =>
            ("The average " ++ col ++ " overall is " ++ formatted ++ ". I couldn" ++ apos ++
               "t group by region due to an error.", none, m)
          | some regionAvgs =>
            let viz : VizInfo := { vtype := "bar", columns := some [regionCol, actualCol],
                                   title := "Average " ++ col ++ " by region",
                                   params := some [] }
            ("The average " ++ col ++ " overall is " ++ formatted ++
               ".\n\nBreakdown by region:\n" ++
               String.join (regionAvgs.map (fun row =>
                 "- " ++ row.1.render ++ ": " ++ formatAgg (col = "price") row.2 ++ "\n")),
             some viz, m)
      else ("The average " ++ col ++ " is " ++ formatted ++ ".", none, m)

/-- Reads `row[c]` for the row selected by `df[df[col] == extreme].iloc[0]`. -/
def cellAt (t : Table) (c : String) (i : Option ℕ) : Value :=
  match i with
  | some i => ((t.getCol c).get? i).getD .null
  | none => .null

/-- the `(Property ID: ..., ... bed, ... bath, ... region)` detail suffix
shared by `_handle_max_query` and `_handle_min_query`; also returns the
cache updated by the four column resolutions. -/
def extremeDetails (m : ColumnMap) (t : Table) (rowIdx : Option ℕ) :
    List String × ColumnMap :=
  let rid := getActualColumnName m t "id"
  let rbed := getActualColumnName rid.2 t "bedrooms"
  let rbath := getActualColumnName rbed.2 t "bathrooms"
  let rreg := getActualColumnName rbath.2 t "region"
  ((if t.hasCol rid.1 then ["Property ID: " ++ (cellAt t rid.1 rowIdx).render] else []) ++
   (if t.hasCol rbed.1 then [(cellAt t rbed.1 rowIdx).render ++ " bed"] else []) ++
   (if t.hasCol rbath.1 then [(cellAt t rbath.1 rowIdx).render ++ " bath"] else []) ++
   (if t.hasCol rreg.1 then [(cellAt t rreg.1 rowIdx).render ++ " region"] else []),
   rreg.2)

/-- Embeds `BasicQueryHandler._handle_max_query`. -/
def handleMax (query : String) (m : ColumnMap) (t : Table) :
    String × Option VizInfo × ColumnMap :=
  match aggPropsPat.find? (fun c => strContains query c) with
  | none =>
    ("Please specify what property you want the maximum of (price, sqft, bedrooms, etc.).",
     none, m)
  | some col =>
    let r := getActualColumnName m t col
    let actualCol := r.1
    let m := r.2
    if ¬ t.hasCol actualCol then (msgColNotFound col t, none, m)
    else
      let mx := maxOpt (t.getCol actualCol)
      let rowIdx := match mx with
        | some q => (t.getCol actualCol).findIdx? (fun v => v.toQ = some q)
        | none => none
      let formatted := formatAgg (col = "price") mx
      let d := extremeDetails m t rowIdx
      let res := "The maximum " ++ col ++ " is " ++ formatted ++
        (if d.1.isEmpty then "" else " (" ++ String.intercalate ", " d.1 ++ ")")
      (res ++ ".", none, d.2)

/-- Embeds `BasicQueryHandler._handle_min_query`. -/
def handleMin (query : String) (m : ColumnMap) (t : Table) :
    String × Option VizInfo × ColumnMap :=
  match aggPropsPat.find? (fun c => strContains query c) with
  | none =>
    ("Please specify what property you want the minimum of (price, sqft, bedrooms, etc.).",
     none, m)
  | some col =>
    let r := getActualColumnName m t col
    let actualCol := r.1
    let m := r.2
    if ¬ t.hasCol actualCol then (msgColNotFound col t, none, m)
    else
      let mn := minOpt (t.getCol actualCol)
      let rowIdx := match mn with
        | some q => (t.getCol actualCol).findIdx? (fun v => v.toQ = some q)
        | none => none
      let formatted := formatAgg (col = "price") mn
      let d := extremeDetails m t rowIdx
      let res := "The minimum " ++ col ++ " is " ++ formatted ++
        (if d.1.isEmpty then "" else " (" ++ String.intercalate ", " d.1 ++ ")")
      (res ++ ".", none, d.2)

/-- One of the four value-count branches of `_handle_count_query`
(bedrooms / bathrooms / garage / fireplace); the branches of the source
are identical up to the feature name and the three message strings. -/
def countBranch (m : ColumnMap) (t : Table) (feat title header unit : String) :
    String × Option VizInfo × ColumnMap :=
  let r := getActualColumnName m t feat
  if ¬ t.hasCol r.1 then (msgFeatNotFound feat t, none, r.2)
  else
    let counts := valueCountsSorted (t.getCol r.1)
    let viz : VizInfo := { vtype := "bar", columns := some [r.1, "count"],
                           title := title, params := some [] }
    (header ++ String.join (counts.map (fun p =>
       "- " ++ p.1.render ++ " " ++ unit ++ ": " ++ Nat.repr p.2 ++ " properties\n")),
     some viz, r.2)

/-- Embeds `BasicQueryHandler._handle_count_query`. -/
def handleCount (query : String) (m : ColumnMap) (t : Table) :
    String × Option VizInfo × ColumnMap :=
  if strContains query "bedrooms" then
    countBranch m t "bedrooms" "Count of properties by bedroom count"
      "Count of properties by bedroom count:\n" "bedrooms"
  else if strContains query "bathrooms" then
    countBranch m t "bathrooms" "Count of properties by bathroom count"
      "Count of properties by bathroom count:\n" "bathrooms"
  else if strContains query "garage" then
    countBranch m t "garage" "Count of properties by garage spaces"
      "Count of properties by garage spaces:\n" "garage spaces"
  else if strContains query "fireplace" || strContains query "fireplaces" then
    countBranch m t "fireplace" "Count of properties by number of fireplaces"
      "Count of properties by number of fireplaces:\n" "fireplaces"
  else if strContains query "pool" then
    let r := getActualColumnName m t "pool"
    if ¬ t.hasCol r.1 then (msgFeatNotFound "pool" t, none, r.2)
    else
      let hasPool := (t.getCol r.1).count (Value.num 1)
      let noPool := (t.getCol r.1).count (Value.num 0)
      let viz : VizInfo := { vtype := "pie", columns := some [r.1, "count"],
                             title := "Properties with/without pools", params := some [] }
      ("There are " ++ Nat.repr hasPool ++ " properties with a pool and " ++
         Nat.repr noPool ++ " properties without a pool.", some viz, r.2)
  else
    ("Please specify what feature you want to count (bedrooms, bathrooms, garage, fireplace, pool).",
     none, m)

/-- Embeds `BasicQueryHandler._handle_region_query`. -/
def handleRegion (query : String) (m : ColumnMap) (t : Table) :
    String × Option VizInfo × ColumnMap :=
  let r := getActualColumnName m t "region"
  let regionCol := r.1
  let m := r.2
  if ¬ t.hasCol regionCol then (msgFeatNotFound "region" t, none, m)
  else if strContains query "count" || strContains query "how many" then
    let counts := valueCountsDesc (t.getCol regionCol)
    let viz : VizInfo := { vtype := "bar", columns := some [regionCol, "count"],
                           title := "Count of properties by region", params := some [] }
    ("Count of properties by region:\n" ++ String.join (counts.map (fun p =>
       "- " ++ p.1.render ++ ": " ++ Nat.repr p.2 ++ " properties\n")), some viz, m)
  else if strContains query "average price" || strContains query "avg price" then
    let rp := getActualColumnName m t "price"
    let priceCol := rp.1
    let m := rp.2
    if ¬ t.hasCol priceCol then (msgFeatNotFound "price" t, none, m)
    else
      let g := safeGroupby m t "region" "price"
      let m := g.2
      match g.1 with
      | none =>
        ("I couldn" ++ apos ++ "t calculate average prices by region due to an error.",
         none, m)
      | some avgs =>
        let viz : VizInfo := { vtype := "bar", columns := some [regionCol, priceCol],
                               title := "Average price by region", params := some [] }
        ("Average price by region:\n" ++ String.join (avgs.map (fun row =>
           "- " ++ row.1.render ++ ": " ++ formatAgg true row.2 ++ "\n")), some viz, m)
  else
    ("The data contains properties in different regions. You can ask about counts or average prices by region.",
     none, m)

/-- Python `df[col].dtype == object`: the column holds strings. -/
def colIsObject (col : List Value) : Bool := col.any Value.isStr

/-- Python `pd.api.types.is_numeric_dtype(df[col].dtype)`: no string cells (an
all-null column has dtype float64 and counts as numeric). -/
def colIsNumeric (col : List Value) : Bool := col.all (fun v => ¬ v.isStr)

/-- Python `df[col].nunique()`: distinct non-null values. -/
def nuniqueCol (col : List Value) : ℕ :=
  ((col.filter (fun v => ¬ v.isNull)).dedup).length

/-- Python `str.capitalize` on the lowercase chart-kind names. -/
def capitalizeStr (s : String) : String :=
  match s.toList with
  | [] => ""
  | c :: rest => String.mk (c.toUpper :: rest)

/-- Embeds `BasicQueryHandler._handle_chart_query`.  (A zero-column dataframe
would raise `IndexError` in the source when building the answer text; the
embedding renders the missing names as empty strings there.) -/
def handleChart (query : String) (m : ColumnMap) (t : Table) :
    String × Option VizInfo × ColumnMap :=
  let vizType :=
    if strContains query "bar" then "bar"
    else if strContains query "pie" then "pie"
    else if strContains query "line" then "line"
    else if strContains query "scatter" then "scatter"
    else "bar"
  let columns := t.columns.filter (fun c => strContains (pyLower query) (pyLower c))
  let columns :=
    if columns.isEmpty then
      let cs :=
        if vizType = "bar" || vizType = "pie" then
          match t.cols.find? (fun c => colIsObject c.2 || nuniqueCol c.2 < 10) with
          | some c0 =>
            if vizType = "bar" then
              match t.cols.find? (fun c => colIsNumeric c.2 && ¬ (c.1 = c0.1)) with
              | some c1 => [c0.1, c1.1]
              | none => [c0.1]
            else [c0.1]
          | none => []
        else if vizType = "line" || vizType = "scatter" then
          ((t.cols.filter (fun c => colIsNumeric c.2)).map Prod.fst).take 2
        else []
      if cs.isEmpty then t.columns.take 2 else cs
    else columns
  let viz : VizInfo := { vtype := vizType, x_column := columns.head?,
                         y_column := columns.get? 1,
                         title := capitalizeStr vizType ++ " Chart of " ++
                           String.intercalate " vs " columns }
  let ans := "Here" ++ apos ++ "s a " ++ vizType ++ " chart visualizing " ++
    (if columns.length = 1 then
       "the distribution of " ++ ((columns.get? 0).getD "") ++ "."
     else ((columns.get? 0).getD "") ++ " vs " ++ ((columns.get? 1).getD "") ++ ".")
  (ans, some viz, m)

/-- Result of `BasicQueryHandler.process_query`: answer text, optional
visualization request, the handler state (`self.column_map`) after the
call, and the dataframe after the call (the source performs no in-place
dataframe mutation; every pandas operation it uses returns derived data). -/
structure PQOut where
  answer : String
  viz : Option VizInfo
  state : ColumnMap
  table : Table
deriving DecidableEq, Repr

/-- the `if not self.column_map: ...` initialization at the top of
`process_query` (lowercased column names mapped to actual names; later
duplicates overwrite earlier ones, as in a Python dict). -/
def initColumnMap (m : ColumnMap) (t : Table) : ColumnMap :=
  if m.isEmpty then t.columns.foldl (fun acc c => dictSet acc (pyLower c) c) [] else m

/-- the per-intent dispatch of `process_query`. -/
def dispatchIntent (i : Intent) (query : String) (m : ColumnMap) (t : Table) :
    String × Option VizInfo × ColumnMap :=
  match i with
  | .average => handleAverage query m t
  | .maximum => handleMax query m t
  | .minimum => handleMin query m t
  | .count => handleCount query m t
  | .region => handleRegion query m t
  | .chart => handleChart query m t

/-- the fixed no-match answer of `process_query`. -/
def defaultAnswer : String :=
  "I" ++ apos ++ "m sorry, I don" ++ apos ++
    "t understand that query. Please try a simpler question about averages, counts, or maximums/minimums of properties in the dataset."

/-- body of `process_query` after the `query = query.lower()` line. -/
def processQueryLowered (query : String) (m : ColumnMap) (t : Table) : PQOut :=
  let m := initColumnMap m t
  match classify query with
  | some i =>
    let r := dispatchIntent i query m t
    ⟨r.1, r.2.1, r.2.2, t⟩
  | none => ⟨defaultAnswer, none, m, t⟩

/-- Embeds `BasicQueryHandler.process_query`. -/
def processQuery (q : String) (m : ColumnMap) (t : Table) : PQOut :=
  processQueryLowered (pyLower q) m t

/-! The visualization selector (`modules/visualizer.py`).  In the source
file each chart-builder method is defined twice; Python keeps the later
definition, so `create_visualization` dispatches to the
`x_column`/`y_column`-based builders of the second half of the file. -/

/-- Embeds `Visualizer.column_mappings`. -/
def column_mappings : List (String × List String) :=
  [("region", ["region", "location", "area", "city", "state", "country", "zone"]),
   ("country", ["country", "nation", "land"]),
   ("city", ["city", "town", "municipality"]),
   ("category", ["category", "type", "class", "group", "classification", "property_type"]),
   ("product", ["product", "item", "good", "merchandise", "service"]),
   ("status", ["status", "condition", "state", "health"]),
   ("value", ["value", "price", "cost", "amount", "sum", "total"]),
   ("quantity", ["quantity", "count", "number", "amount", "total"]),
   ("age", ["age", "years", "duration", "period"]),
   ("date", ["date", "day", "time", "timestamp", "year_built"]),
   ("year", ["year", "yr", "annual", "year_built"]),
   ("month", ["month", "mo"]),
   ("size", ["size", "square_feet", "area", "square_footage", "sq_ft", "sqft"]),
   ("rooms", ["rooms", "bedrooms", "bathrooms", "beds", "baths"])]

/-- Embeds `Visualizer.find_column_by_type`: first column whose lowercased name
contains (as a substring) an alias of one of the preferred roles, roles
tried in order. -/
def findColumnByType (t : Table) (preferredTypes : List String) : Option String :=
  preferredTypes.findSome? (fun colType =>
    t.columns.findSome? (fun colName =>
      let mapped := ((column_mappings.find? (fun e => e.1 = colType)).map Prod.snd).getD [colType]
      mapped.findSome? (fun mc =>
        if hasSub (pyLower mc).toList (pyLower colName).toList then some colName else none)))

/-- A concrete plotly figure, abstracted to the construction the source
performs (the rendering library itself is an external collaborator). -/
inductive Fig where
  | errFig (msg : String)
  | pxBar (x y : String) (color : Option String) (title : String)
  | pxBarCount (x : String) (counts : List (Value × ℕ)) (title : String)
  | pxLine (x y : String) (color : Option String) (title : String)
  | pxScatter (x y : String) (color : Option String) (title : String)
  | pxPie (names vals : String) (title : String)
  | pxPieCount (names : String) (counts : List (Value × ℕ)) (title : String)
deriving DecidableEq, Repr

/-- A Chart Result: the dict returned by `create_visualization` and the
chart builders.  An `Option` field is `none` when the key is absent. -/
structure ChartResult where
  figure : Option Fig := none
  error : Option String := none
  details : Option String := none
  warning : Option String := none
deriving DecidableEq, Repr

/-- Embeds `Visualizer._create_bar_chart` (the later, named-column definition). -/
def createBarChart (t : Table) (x y color : Option String) (title : String) :
    ChartResult :=
  match x with
  | none =>
    { figure := some (.errFig "No suitable column found for X axis"),
      warning := some "No suitable column found for X axis" }
  | some x =>
    match y with
    | some y => { figure := some (.pxBar x y color title) }
    | none =>
      { figure := some (.pxBarCount x (valueCountsDesc (t.getCol x))
          (title ++ " (Count of " ++ x ++ ")")) }

/-- Embeds `Visualizer._create_line_chart` (the later, named-column definition). -/
def createLineChart (t : Table) (x y color : Option String) (title : String) :
    ChartResult :=
  match x, y with
  | some x, some y => { figure := some (.pxLine x y color title) }
  | _, _ =>
    { figure := some (.errFig "Missing X or Y columns for line chart"),
      warning := some "Line charts require both X and Y columns" }

/-- Embeds `Visualizer._create_scatter_plot` (the later, named-column
definition). -/
def createScatterPlot (t : Table) (x y color : Option String) (title : String) :
    ChartResult :=
  match x, y with
  | some x, some y => { figure := some (.pxScatter x y color title) }
  | _, _ =>
    { figure := some (.errFig "Missing X or Y columns for scatter plot"),
      warning := some "Scatter plots require both X and Y columns" }

/-- Embeds `Visualizer._create_pie_chart` (the later, named-column definition). -/
def createPieChart (t : Table) (names vals : Option String) (title : String) :
    ChartResult :=
  match names with
  | none =>
    { figure := some (.errFig "No suitable column found for pie chart categories"),
      warning := some "No suitable column found for pie chart categories" }
  | some names =>
    match vals with
    | some vals => { figure := some (.pxPie names vals title) }
    | none =>
      { figure := some (.pxPieCount names (valueCountsDesc (t.getCol names))
          (title ++ " (Count of " ++ names ++ ")")) }

/-- Embeds `Visualizer._create_count_based_viz`. -/
def createCountBasedViz (t : Table) (column : String) (title vizType : String) :
    ChartResult :=
  let counts := valueCountsDesc (t.getCol column)
  if vizType = "bar" then
    { figure := some (.pxBarCount column counts (title ++ " (Count of " ++ column ++ ")")) }
  else if vizType = "pie" then
    { figure := some (.pxPieCount column counts (title ++ " (Count of " ++ column ++ ")")) }
  else { error := some ("Unsupported count visualization type: " ++ vizType) }

/-- Embeds `Visualizer.create_visualization`: heuristic column discovery for
unset axes, then dispatch on the requested kind.  Every path returns a
dict (never `None`); kinds other than bar/line/scatter/pie/count fall to
the `Unsupported visualization type` error, which carries no figure.  The
second component is the dataframe after the call (the source only reads
it). -/
def createVisualization (t : Table) (vizType : String)
    (xColumn yColumn colorBy : Option String) (title : String) :
    ChartResult × Table :=
  let x := match xColumn with
    | some x => some x
    | none => findColumnByType t ["category", "region", "product", "status"]
  let y := match yColumn with
    | some y => some y
    | none => findColumnByType t ["value", "quantity", "price", "size"]
  let color := match colorBy with
    | some c => some c
    | none =>
      if vizType = "pie" || vizType = "count" then none
      else findColumnByType t ["category", "status"]
  let result :=
    if vizType = "bar" then createBarChart t x y color title
    else if vizType = "line" then createLineChart t x y color title
    else if vizType = "scatter" then createScatterPlot t x y color title
    else if vizType = "pie" then createPieChart t x y title
    else if vizType = "count" then
      match x with
      | some xc => createCountBasedViz t xc title "bar"
      | none => { error := some "No column specified for count visualization" }
    else { error := some ("Unsupported visualization type: " ++ vizType) }
  (result, t)

/-! The remote-answer orchestrator (`modules/llm_agent.py`,
`OllamaAgent.answer_query`) and the query pipeline of `app.py`.
The HTTP transport and the JSON/pydantic parser are external
collaborators: the transport outcome is a parameter (`RemoteOutcome`),
and `json.loads` + `QueryResponse(**...)` of the brace-delimited
substring is an oracle parameter `parse`.  The brace extraction itself
(`find`/`rfind` and the slice) is embedded from the source. -/

/-- outcome of `_make_request_with_retry` as seen by `answer_query`:
terminal timeout, terminal request error, or a completion payload. -/
inductive RemoteOutcome where
  | timeout
  | connError (msg : String)
  | ok (payload : String)

/-- the parsed `QueryResponse` pydantic model. -/
structure QueryResponseM where
  answer : String
  visualization_needed : Bool
  viz_type : Option String
  viz_columns : Option (List String)
  viz_title : Option String
  viz_params : Option (List (String × String))

def lbrace : Char := Char.ofNat 123

def rbrace : Char := Char.ofNat 125

/-- Python `s.rfind(c)`. -/
def lastIdxOf (c : Char) (s : List Char) : Option ℕ :=
  match s.reverse.findIdx? (fun ch => ch = c) with
  | some i => some (s.length - 1 - i)
  | none => none

/-- the brace extraction of `answer_query`: `find` of the first opening
brace, `rfind` of the last closing brace plus one, and the slice between
them when `json_start >= 0 and json_end > json_start`. -/
def extractJson (payload : String) : Option String :=
  let cs := payload.toList
  match cs.findIdx? (fun ch => ch = lbrace), lastIdxOf rbrace cs with
  | some js, some je =>
    if je + 1 > js then some (String.mk ((cs.drop js).take (je + 1 - js))) else none
  | _, _ => none

/-- Embeds `OllamaAgent.answer_query`.  A timeout or request error is reported as
the corresponding message; a payload without a brace-delimited substring
yields the fixed could-not-format answer; a
parse failure yields `Error parsing response: ...`; otherwise the parsed
answer is returned, with a visualization request in the named form when
requested.  (When `viz_columns` is absent but a visualization was
requested, the source evaluates `len(None)` and the resulting `TypeError`
is caught by the outer handler as `Error processing query: ...`.  A
missing `viz_title` is modelled as the empty string.) -/
def answerQuery (parse : String → Except String QueryResponseM)
    (outcome : RemoteOutcome) : String × Option VizInfo :=
  match outcome with
  | .timeout =>
    ("The request timed out. The server might be busy. Please try again in a moment.",
     none)
  | .connError e =>
    ("Error connecting to the language model server: " ++ e ++
       ". Please ensure the server is running.", none)
  | .ok payload =>
    match extractJson payload with
    | none => ("I couldn" ++ apos ++ "t format the response properly.", none)
    | some js =>
      match parse js with
      | .error e => ("Error parsing response: " ++ e, none)
      | .ok r =>
        let vtOk := match r.viz_type with
          | some vt => ¬ (vt = "")
          | none => false
        if r.visualization_needed && vtOk then
          match r.viz_columns with
          | none => ("Error processing query: object of type NoneType has no len()", none)
          | some colsL =>
            (r.answer,
             some { vtype := r.viz_type.getD "", x_column := colsL.head?,
                    y_column := colsL.get? 1,
                    color_by := match r.viz_params with
                      | some ps => (ps.find? (fun e => e.1 = "color_column")).map Prod.snd
                      | none => none,
                    title := r.viz_title.getD "" })
        else (r.answer, none)

/-- the visualization section of `app.process_query` (lines building
`plot` and appending notes to `answer` from the Chart Result). -/
def vizStage (t : Table) (answer : String) (vizInfo : Option VizInfo) :
    String × Option Fig :=
  match vizInfo with
  | none => (answer, none)
  | some vi =>
    let r := (createVisualization t vi.vtype vi.x_column vi.y_column vi.color_by vi.title).1
    match r.error with
    | some err =>
      match r.figure with
      | some f =>
        (answer ++ "\n\nNote: There was an issue with the visualization, but I" ++ apos ++
           "m showing a simplified version.", some f)
      | none =>
        (answer ++ "\n\nNote: I couldn" ++ apos ++ "t create a visualization: " ++ err,
         none)
    | none =>
      match r.figure with
      | some f =>
        (answer ++ (match r.warning with
          | some w => "\n\nNote: " ++ w
          | none => ""), some f)
      | none =>
        (answer ++ "\n\nNote: I couldn" ++ apos ++
           "t create a visualization due to an unexpected result format.", none)

/-- Embeds `app.process_query`: ask the remote agent; when its answer starts with
`Error` or `The request timed out`, fall back to
`basic_handler.process_query`; then run the visualization stage. -/
def appProcessQuery (parse : String → Except String QueryResponseM)
    (outcome : RemoteOutcome) (q : String) (m : ColumnMap) (t : Table) :
    String × Option Fig :=
  let llm := answerQuery parse outcome
  let chosen :=
    if pyStartsWith llm.1 "Error" || pyStartsWith llm.1 "The request timed out" then
      let b := processQuery q m t
      (b.answer, b.viz)
    else llm
  vizStage t chosen.1 chosen.2

/-! Concrete instances used by closed theorems below. -/

/-- a table whose single column name matches no discovery heuristic. -/
def T_foo : Table := ⟨[("foo", [.str "a"])], 1⟩

/-- a Price/Region/Bedrooms table with two rows. -/
def T_pr2 : Table :=
  ⟨[("Price", [.num 100, .num 200]), ("Region", [.str "North", .str "South"]),
    ("Bedrooms", [.num 2, .num 3])], 2⟩

/-- first uploaded table: the price column is spelled `Price`. -/
def T_price1 : Table := ⟨[("Price", [.num 100])], 1⟩

/-- second uploaded table: the price column is spelled `listing_price`. -/
def T_listing : Table := ⟨[("listing_price", [.num 200])], 1⟩

/-- a pool column holding the values 1, 0 and 2 over three rows. -/
def T_pool3 : Table := ⟨[("pool", [.num 1, .num 0, .num 2])], 3⟩

/-- a bedrooms column over three rows. -/
def T_bed3 : Table := ⟨[("bedrooms", [.num 2, .num 2, .num 3])], 3⟩

/-- a single-column price table. -/
def T_price10 : Table := ⟨[("price", [.num 10])], 1⟩

/-- a parse oracle that always fails. -/
def parseFail : String → Except String QueryResponseM := fun _ => Except.error "stub"

/-- a table whose only region-like column is named `City`. -/
def T_city1 : Table := ⟨[("City", [.str "x"])], 1⟩

/-- a table whose only region-like column is named `Location`. -/
def T_loc1 : Table := ⟨[("Location", [.str "x"])], 1⟩

/-- a small price table used by several witnesses. -/
def T_w : Table := ⟨[("price", [.num 1, .num 2])], 2⟩

/-! ## Theorems -/

theorem perm_insertSorted (le : α → α → Bool) (x : α) (l : List α) :
    List.Perm (insertSorted le x l) (x :: l) := by
  induction l with
  | nil => simp [insertSorted]
  | cons y ys ih =>
    by_cases h : le x y = true
    · simp [insertSorted, h]
    · simp only [insertSorted, h, if_neg]
      exact List.Perm.trans (ih.cons y) (List.Perm.swap x y ys)

theorem perm_isort (le : α → α → Bool) (l : List α) : List.Perm (isort le l) l := by
  induction l with
  | nil => simp [isort]
  | cons x xs ih =>
    exact List.Perm.trans (perm_insertSorted le x (isort le xs)) (ih.cons x)

theorem length_isort (le : α → α → Bool) (l : List α) :
    (isort le l).length = l.length :=
  (perm_isort le l).length_eq

theorem isPrefixOf_append (p a b : List Char) (h : p.isPrefixOf a = true) :
    p.isPrefixOf (a ++ b) = true := by
  induction p generalizing a with
  | nil => simp [List.isPrefixOf]
  | cons c cs ih =>
    cases a with
    | nil => simp [List.isPrefixOf] at h
    | cons d ds =>
      simp only [List.cons_append, List.isPrefixOf, Bool.and_eq_true] at h ⊢
      exact ⟨h.1, ih ds h.2⟩

theorem find?_eq_of_first (l : List α) (p : α → Bool) :
    ∀ (i : ℕ) (a : α), l.get? i = some a →
      (∀ j b, j < i → l.get? j = some b → p b = false) → p a = true →
      l.find? p = some a := by
  induction l with
  | nil => intro i a hget; simp at hget
  | cons x xs ih =>
    intro i a hget hearlier hpa
    cases i with
    | zero =>
      simp only [List.get?_cons_zero, Option.some.injEq] at hget
      subst hget
      exact List.find?_cons_of_pos _ hpa
    | succ j =>
      have hx : p x = false := hearlier 0 x (Nat.succ_pos j) rfl
      rw [List.find?_cons_of_neg _ (by simp [hx])]
      exact ih j a hget
        (fun k b hk hb => hearlier (k + 1) b (Nat.succ_lt_succ hk) hb) hpa

theorem find?_eq_some_of_unique (l : List α) (p : α → Bool) (a : α)
    (ha : a ∈ l) (hpa : p a = true) (huniq : ∀ b ∈ l, p b = true → b = a) :
    l.find? p = some a := by
  induction l with
  | nil => simp at ha
  | cons x xs ih =>
    by_cases hx : p x = true
    · have : x = a := huniq x (List.mem_cons_self x xs) hx
      subst this
      exact List.find?_cons_of_pos _ hx
    · rw [List.find?_cons_of_neg _ hx]
      have hax : a ∈ xs := by
        rcases List.mem_cons.mp ha with h | h
        · exact absurd (h ▸ hpa) hx
        · exact h
      exact ih hax (fun b hb hpb => huniq b (List.mem_cons_of_mem x hb) hpb)

theorem sum_map_ite_count [DecidableEq α] (a : α) (ks : List α) :
    (ks.map (fun k => if k = a then 1 else 0)).sum = ks.count a := by
  induction ks with
  | nil => simp
  | cons x xs ih =>
    by_cases hx : x = a
    · simp [hx, ih, List.count_cons, Nat.add_comm]
    · simp [hx, ih, List.count_cons, Ne.symm hx]

theorem sum_counts_eq_length [DecidableEq α] (l ks : List α) (hn : ks.Nodup)
    (hmem : ∀ a ∈ l, a ∈ ks) :
    (ks.map (fun k => l.count k)).sum = l.length := by
  induction l with
  | nil => simp
  | cons a l ih =>
    have hstep : (ks.map (fun k => (a :: l).count k)).sum
        = (ks.map (fun k => l.count k)).sum
          + (ks.map (fun k => if k = a then 1 else 0)).sum := by
      rw [← List.sum_map_add]
      congr 1
      apply List.map_congr_left
      intro k _
      by_cases hk : k = a
      · subst hk; simp [List.count_cons]
      · simp [List.count_cons, hk, Ne.symm hk]
    rw [hstep, sum_map_ite_count a ks,
      List.count_eq_one_of_mem hn (hmem a (List.mem_cons_self a l)),
      ih (fun b hb => hmem b (List.mem_cons_of_mem a hb))]
    simp

theorem sum_valueCountsSorted (col : List Value) :
    ((valueCountsSorted col).map Prod.snd).sum
      = (col.filter (fun v => ¬ v.isNull)).length := by
  unfold valueCountsSorted
  set nn := col.filter (fun v => ¬ v.isNull) with hnn
  rw [List.map_map]
  have hmaps : (Prod.snd ∘ fun k => (k, nn.count k)) = fun k => nn.count k := rfl
  rw [hmaps]
  apply sum_counts_eq_length
  · exact ((perm_isort Value.leb nn.dedup).nodup_iff).mpr nn.nodup_dedup
  · intro a ha
    exact ((perm_isort Value.leb nn.dedup).mem_iff).mpr (List.mem_dedup.mpr ha)

/-- Claim C10: neither `process_query` nor `create_visualization` mutates
the input table: the dataframe after either call has exactly the columns,
rows and cell values it had before (the embedding threads the dataframe
through both calls; every pandas operation the source performs on it is a
read that computes derived data). -/
theorem C10_no_table_mutation :
    (∀ q m t, (processQuery q m t).table = t) ∧
    (∀ t vt x y c title, (createVisualization t vt x y c title).2 = t) := by
  constructor
  · intro q m t
    rcases h : classify (pyLower q) with _ | i <;>
      simp [processQuery, processQueryLowered, h]
  · intro t vt x y c title
    rfl

/-- Claim C9: `process_query` is invariant under the letter-casing of the
question: two questions with the same lowercasing produce identical
answers, visualization requests and handler states, because the question
is lowercased before classification and every later test operates on the
lowercased text. -/
theorem C9_case_insensitive (m : ColumnMap) (t : Table) (q q' : String)
    (h : pyLower q = pyLower q') : processQuery q m t = processQuery q' m t := by
  simp only [processQuery, h]

theorem C9_case_insensitive_witness :
    processQuery "AVERAGE Price" [] T_w = processQuery "average price" [] T_w :=
  C9_case_insensitive [] T_w "AVERAGE Price" "average price" (by decide)

/-- Claim C7: `process_query` tests the lowercased question against the
intent patterns in the fixed order average, maximum, minimum, count,
region, chart (the order of `supportedQueries`), dispatches on the first
pattern that matches, and for a question matching none of the patterns
returns the fixed sorry-but-not-understood answer with no
visualization request. -/
theorem C7_first_match_dispatch :
    (∀ q m t, classify (pyLower q) = none →
      processQuery q m t = ⟨defaultAnswer, none, initColumnMap m t, t⟩) ∧
    (∀ q i ip, supportedQueries.get? i = some ip →
      (∀ j e, j < i → supportedQueries.get? j = some e → e.2 q = false) →
      ip.2 q = true → classify q = some ip.1) ∧
    (∀ q m t it, classify (pyLower q) = some it →
      processQuery q m t =
        ⟨(dispatchIntent it (pyLower q) (initColumnMap m t) t).1,
         (dispatchIntent it (pyLower q) (initColumnMap m t) t).2.1,
         (dispatchIntent it (pyLower q) (initColumnMap m t) t).2.2, t⟩) := by
  refine ⟨?_, ?_, ?_⟩
  · intro q m t h
    simp [processQuery, processQueryLowered, h]
  · intro q i ip hget hearlier hp
    have hfind := find?_eq_of_first supportedQueries (fun x => x.2 q) i ip hget
      hearlier hp
    simp [classify, hfind]
  · intro q m t it h
    simp [processQuery, processQueryLowered, h]

theorem C7_first_match_dispatch_witness :
    processQuery "hello" [] T_w = ⟨defaultAnswer, none, initColumnMap [] T_w, T_w⟩ :=
  C7_first_match_dispatch.1 "hello" [] T_w (by decide)

/-- Claim C3 (the code violates it): loading a new table does not clear
the memoized column resolutions.  `app.upload_file` never resets the
module-level `basic_handler`, and `process_query` repopulates
`self.column_map` only when it is empty; resolving `price` against the
first table memoizes `Price`, and the same resolution against a second
table whose price column is `listing_price` returns the stale `Price` —
the full pipeline then answers that no price column exists even though a
resolvable alias is present. -/
theorem C3_stale_cache_bug :
    (getActualColumnName (processQuery "average price" [] T_price1).state
        T_listing "price").1 = "Price" ∧
    T_listing.hasCol "Price" = false ∧
    T_listing.hasCol "listing_price" = true ∧
    (processQuery "average price" (processQuery "average price" [] T_price1).state
        T_listing).answer =
      "I couldn" ++ apos ++ "t find the " ++ apos ++ "price" ++ apos ++
        " column in your data. Available columns are: listing_price" := by
  decide

/-- Claim C6 counterexample: with `City` as the only region-like column,
`BasicQueryHandler._get_actual_column_name` does not resolve the logical
key `region` to it — the alias list of the handler for `region` is only
`[region, location, area, neighborhood]`, so the unresolved name comes
back unchanged. -/
theorem C6_counterexample :
    (getActualColumnName [] T_city1 "region").1 = "region" ∧
    T_city1.columns = ["City"] ∧
    ¬ (getActualColumnName [] T_city1 "region").1 = "City" := by
  decide

/-- Claim C6 (amended): the query-handler aliases for `region` are
`location`, `area` and `neighborhood` (besides `region` itself); when a
unique column of a table matching that alias set (case-insensitively) is
`c`, resolving `region` returns `c`.  Columns named `city`, `state`,
`country` or `zone` are not aliases of `region` in the query handler
(they appear only in the separate discovery table of the visualizer). -/
theorem C6_region_alias_resolution (t : Table) (c : String) (hc : c ∈ t.columns)
    (hal : pyLower c = "region" ∨ pyLower c = "location" ∨ pyLower c = "area" ∨
      pyLower c = "neighborhood")
    (huniq : ∀ c' ∈ t.columns,
      (pyLower c' = "region" ∨ pyLower c' = "location" ∨ pyLower c' = "area" ∨
        pyLower c' = "neighborhood") → c' = c) :
    (getActualColumnName [] t "region").1 = c := by
  have hsome : findIgnoreCase t.columns (pyLower c) = some c := by
    apply find?_eq_some_of_unique _ _ c hc (by simp)
    intro b hb hpb
    simp only [decide_eq_true_eq] at hpb
    exact huniq b hb (by rw [hpb]; exact hal)
  have hnone : ∀ al : String, ¬ pyLower c = al →
      (al = "region" ∨ al = "location" ∨ al = "area" ∨ al = "neighborhood") →
      findIgnoreCase t.columns al = none := by
    intro al hne halm
    rw [findIgnoreCase, List.find?_eq_none]
    intro x hx
    simp only [decide_eq_true_eq]
    intro hxeq
    have hx2 : x = c := huniq x hx (by
      rcases halm with h | h | h | h <;> rw [h] at hxeq <;> simp [hxeq])
    rw [hx2] at hxeq
    exact hne hxeq
  rcases hal with h | h | h | h
  · rw [h] at hsome
    simp [getActualColumnName, mapLookup, hsome, show pyLower "region" = "region" from by decide]
  · rw [h] at hsome
    have h1 : findIgnoreCase t.columns "region" = none :=
      hnone "region" (by rw [h]; decide) (Or.inl rfl)
    have hca : (column_aliases.find? (fun e => e.1 = "region")).map Prod.snd =
        some ["region", "location", "area", "neighborhood"] := by decide
    simp [getActualColumnName, mapLookup, aliasLookup, h1, hsome, hca,
      List.findSome?_cons,
      show pyLower "region" = "region" from by decide,
      show pyLower "location" = "location" from by decide]
  · rw [h] at hsome
    have h1 : findIgnoreCase t.columns "region" = none :=
      hnone "region" (by rw [h]; decide) (Or.inl rfl)
    have h2 : findIgnoreCase t.columns "location" = none :=
      hnone "location" (by rw [h]; decide) (Or.inr (Or.inl rfl))
    have hca : (column_aliases.find? (fun e => e.1 = "region")).map Prod.snd =
        some ["region", "location", "area", "neighborhood"] := by decide
    simp [getActualColumnName, mapLookup, aliasLookup, h1, h2, hsome, hca,
      List.findSome?_cons,
      show pyLower "region" = "region" from by decide,
      show pyLower "location" = "location" from by decide,
      show pyLower "area" = "area" from by decide]
  · rw [h] at hsome
    have h1 : findIgnoreCase t.columns "region" = none :=
      hnone "region" (by rw [h]; decide) (Or.inl rfl)
    have h2 : findIgnoreCase t.columns "location" = none :=
      hnone "location" (by rw [h]; decide) (Or.inr (Or.inl rfl))
    have h3 : findIgnoreCase t.columns "area" = none :=
      hnone "area" (by rw [h]; decide) (Or.inr (Or.inr (Or.inl rfl)))
    have hca : (column_aliases.find? (fun e => e.1 = "region")).map Prod.snd =
        some ["region", "location", "area", "neighborhood"] := by decide
    simp [getActualColumnName, mapLookup, aliasLookup, h1, h2, h3, hsome, hca,
      List.findSome?_cons,
      show pyLower "region" = "region" from by decide,
      show pyLower "location" = "location" from by decide,
      show pyLower "area" = "area" from by decide,
      show pyLower "neighborhood" = "neighborhood" from by decide]

theorem C6_region_alias_resolution_witness :
    (getActualColumnName [] T_loc1 "region").1 = "Location" :=
  C6_region_alias_resolution T_loc1 "Location" (by decide)
    (Or.inr (Or.inl (by decide))) (by decide)

/-- Claim C1 counterexample: an `area` request on a table where heuristic
discovery finds no axis columns yields a Chart Result whose `error` is
populated but whose `figure` is absent — not the claimed placeholder
figure.  (`area` and `heatmap` fall to the `Unsupported visualization
type` branch of `create_visualization`, which carries no figure.) -/
theorem C1_counterexample :
    (createVisualization T_foo "area" none none none "t").1.figure = none ∧
    (createVisualization T_foo "area" none none none "t").1.error =
      some "Unsupported visualization type: area" := by
  decide

/-- Claim C1 (amended): when heuristic discovery supplies no axis column,
a `line` or `scatter` request with missing axes yields a Chart Result
with a placeholder figure and a populated `warning` — its `error` field
stays empty — while `area` and `heatmap` requests yield a Chart Result
with a populated `error` and no figure at all.  `create_visualization`
itself always returns a Chart Result (never `None`). -/
theorem C1_missing_axis (t : Table) (c : Option String) (title : String)
    (hx : findColumnByType t ["category", "region", "product", "status"] = none)
    (hy : findColumnByType t ["value", "quantity", "price", "size"] = none) :
    ((createVisualization t "line" none none c title).1 =
        { figure := some (.errFig "Missing X or Y columns for line chart"),
          warning := some "Line charts require both X and Y columns" } ∧
      (createVisualization t "scatter" none none c title).1 =
        { figure := some (.errFig "Missing X or Y columns for scatter plot"),
          warning := some "Scatter plots require both X and Y columns" }) ∧
    ∀ x y : Option String,
      ((createVisualization t "area" x y c title).1 =
          { error := some "Unsupported visualization type: area" } ∧
        (createVisualization t "heatmap" x y c title).1 =
          { error := some "Unsupported visualization type: heatmap" }) := by
  refine ⟨⟨?_, ?_⟩, ?_⟩
  · simp [createVisualization, hx, hy, createLineChart]
  · simp [createVisualization, hx, hy, createScatterPlot]
  · intro x y
    exact ⟨rfl, rfl⟩

theorem C1_missing_axis_witness :
    (createVisualization T_foo "line" none none none "t").1 =
      { figure := some (.errFig "Missing X or Y columns for line chart"),
        warning := some "Line charts require both X and Y columns" } :=
  (C1_missing_axis T_foo none "t" (by decide) (by decide)).1.1

theorem pyStartsWith_append (a b p : String) (h : pyStartsWith a p = true) :
    pyStartsWith (a ++ b) p = true := by
  unfold pyStartsWith at h ⊢
  rw [show (a ++ b).toList = a.toList ++ b.toList from String.data_append a b]
  exact isPrefixOf_append _ _ _ h

theorem foldl_max_spec (as : List ℚ) (a : ℚ) :
    (as.foldl max a = a ∨ as.foldl max a ∈ as) ∧ a ≤ as.foldl max a ∧
      ∀ x ∈ as, x ≤ as.foldl max a := by
  induction as generalizing a with
  | nil => simp
  | cons b bs ih =>
    obtain ⟨hmem, hle, hall⟩ := ih (max a b)
    refine ⟨?_, ?_, ?_⟩
    · rcases hmem with h | h
      · rcases max_choice a b with hm | hm
        · exact Or.inl (by rw [List.foldl_cons, h, hm])
        · exact Or.inr (by rw [List.foldl_cons, h, hm]; exact List.mem_cons_self b bs)
      · exact Or.inr (List.mem_cons_of_mem b h)
    · exact le_trans (le_max_left a b) hle
    · intro x hx
      rcases List.mem_cons.mp hx with rfl | h
      · exact le_trans (le_max_right a x) hle
      · exact hall x h

theorem foldl_min_spec (as : List ℚ) (a : ℚ) :
    (as.foldl min a = a ∨ as.foldl min a ∈ as) ∧ as.foldl min a ≤ a ∧
      ∀ x ∈ as, as.foldl min a ≤ x := by
  induction as generalizing a with
  | nil => simp
  | cons b bs ih =>
    obtain ⟨hmem, hle, hall⟩ := ih (min a b)
    refine ⟨?_, ?_, ?_⟩
    · rcases hmem with h | h
      · rcases min_choice a b with hm | hm
        · exact Or.inl (by rw [List.foldl_cons, h, hm])
        · exact Or.inr (by rw [List.foldl_cons, h, hm]; exact List.mem_cons_self b bs)
      · exact Or.inr (List.mem_cons_of_mem b h)
    · exact le_trans hle (min_le_left a b)
    · intro x hx
      rcases List.mem_cons.mp hx with rfl | h
      · exact le_trans hle (min_le_right a x)
      · exact hall x h

theorem max?_spec (l : List ℚ) (h : l ≠ []) :
    ∃ m, l.max? = some m ∧ m ∈ l ∧ ∀ x ∈ l, x ≤ m := by
  cases l with
  | nil => exact absurd rfl h
  | cons a as =>
    obtain ⟨hmem, hle, hall⟩ := foldl_max_spec as a
    refine ⟨as.foldl max a, rfl, ?_, ?_⟩
    · rcases hmem with hm | hm
      · rw [hm]; exact List.mem_cons_self a as
      · exact List.mem_cons_of_mem a hm
    · intro x hx
      rcases List.mem_cons.mp hx with rfl | hx
      · exact hle
      · exact hall x hx

theorem min?_spec (l : List ℚ) (h : l ≠ []) :
    ∃ m, l.min? = some m ∧ m ∈ l ∧ ∀ x ∈ l, m ≤ x := by
  cases l with
  | nil => exact absurd rfl h
  | cons a as =>
    obtain ⟨hmem, hle, hall⟩ := foldl_min_spec as a
    refine ⟨as.foldl min a, rfl, ?_, ?_⟩
    · rcases hmem with hm | hm
      · rw [hm]; exact List.mem_cons_self a as
      · exact List.mem_cons_of_mem a hm
    · intro x hx
      rcases List.mem_cons.mp hx with rfl | hx
      · exact hle
      · exact hall x hx

theorem numsOf_ne_nil (vs : List Value) (hne : vs ≠ [])
    (hnum : ∀ v ∈ vs, ¬ v.toQ = none) : numsOf vs ≠ [] := by
  cases vs with
  | nil => exact absurd rfl hne
  | cons v l =>
    have hv := hnum v (List.mem_cons_self v l)
    cases h : v.toQ with
    | none => exact absurd h hv
    | some q => simp [numsOf, List.filterMap_cons, h]

/-- Claim C2 counterexample: on a Price/Region/Bedrooms table the
bar-chart request attached to `"What is the average price by region?"` is
emitted in the deprecated positional form (`columns = [Region, Price]`,
no `x_column`/`y_column` keys), not in the unified named form with
`x_column = Region` and `y_column = Price` that the claim asserts. -/
theorem C2_counterexample :
    (processQuery "What is the average price by region?" [] T_pr2).viz =
      some { vtype := "bar", columns := some ["Region", "Price"], x_column := none,
             y_column := none, color_by := none,
             title := "Average price by region", params := some [] } ∧
    ((processQuery "What is the average price by region?" [] T_pr2).viz.map
        VizInfo.x_column) = some none := by
  exact ⟨rfl, rfl⟩

/-- Claim C2 (amended): on a table with columns Price, Region, Bedrooms,
the question `What is the average price by region?` yields an answer
opening with `The average price overall is ...` followed by one breakdown
line per distinct Region value (one line per group of
`groupby(Region).mean()`, whose group count equals the number of distinct
region values), together with a bar-chart request in the deprecated
positional form `columns = [Region, Price]` (whose alias reading is
`x = Region`, `y = Price`). -/
theorem C2_average_price_by_region (ps rs bs : List Value) (n : ℕ)
    (hrs : ∀ v ∈ rs, v.isNull = false)
    (hlen : rs.length = ps.length) :
    (processQuery "What is the average price by region?" []
        ⟨[("Price", ps), ("Region", rs), ("Bedrooms", bs)], n⟩).answer =
      "The average price overall is " ++ formatAgg true (meanOpt ps) ++
        ".\n\nBreakdown by region:\n" ++
        String.join ((groupbyMean ⟨[("Price", ps), ("Region", rs), ("Bedrooms", bs)], n⟩
            "Region" "Price").map (fun row =>
          "- " ++ row.1.render ++ ": " ++ formatAgg true row.2 ++ "\n")) ∧
    (processQuery "What is the average price by region?" []
        ⟨[("Price", ps), ("Region", rs), ("Bedrooms", bs)], n⟩).viz =
      some { vtype := "bar", columns := some ["Region", "Price"],
             title := "Average price by region", params := some [] } ∧
    (groupbyMean ⟨[("Price", ps), ("Region", rs), ("Bedrooms", bs)], n⟩
        "Region" "Price").length = rs.dedup.length := by
  refine ⟨rfl, rfl, ?_⟩
  have hR : Table.getCol ⟨[("Price", ps), ("Region", rs), ("Bedrooms", bs)], n⟩
      "Region" = rs := rfl
  have hP : Table.getCol ⟨[("Price", ps), ("Region", rs), ("Bedrooms", bs)], n⟩
      "Price" = ps := rfl
  have h1 : ((rs.zip ps).filter (fun p => ¬ p.1.isNull)) = rs.zip ps := by
    apply List.filter_eq_self.mpr
    intro p hp
    have hmem := (List.mem_zip hp).1
    simp [hrs p.1 hmem]
  rw [groupbyMean, hR, hP, h1, List.map_fst_zip rs ps (le_of_eq hlen),
    List.length_map, length_isort]

theorem C2_average_price_by_region_witness :
    (processQuery "What is the average price by region?" [] T_pr2).viz =
      some { vtype := "bar", columns := some ["Region", "Price"],
             title := "Average price by region", params := some [] } :=
  (C2_average_price_by_region [Value.num 100, Value.num 200]
    [Value.str "North", Value.str "South"] [Value.num 2, Value.num 3] 2
    (by decide) (by decide)).2.1

/-- Claim C4 counterexample: on a three-row table whose `pool` column
holds 1, 0 and 2, the count handler reports one property with a pool and
one without — the reported counts sum to 2, not to `len(T) = 3` (the
`pool` branch counts only cells equal to 1 or 0). -/
theorem C4_counterexample :
    (processQuery "how many properties have a pool" [] T_pool3).answer =
      "There are 1 properties with a pool and 1 properties without a pool." ∧
    T_pool3.nrows = 3 := by
  decide

/-- Claim C4 (amended): for the bedrooms/bathrooms/garage/fireplace
branches of the count handler, the reported per-value counts
(`value_counts().sort_index()`) sum to the number of non-null cells of
the counted column — which equals `len(T)` only when the column has no
nulls; the `pool` branch instead reports the number of cells equal to 1
and the number equal to 0, so its two counts sum to `len(T)` only when
every cell is 0 or 1. -/
theorem C4_count_totals :
    (∀ col : List Value,
      ((valueCountsSorted col).map Prod.snd).sum
        = (col.filter (fun v => ¬ v.isNull)).length) ∧
    (∀ m t feat title header unit,
      t.hasCol (getActualColumnName m t feat).1 = true →
      (countBranch m t feat title header unit).1 =
        header ++ String.join ((valueCountsSorted
            (t.getCol (getActualColumnName m t feat).1)).map (fun p =>
          "- " ++ p.1.render ++ " " ++ unit ++ ": " ++ Nat.repr p.2 ++
            " properties\n"))) ∧
    (∀ q m t, strContains q "bedrooms" = false → strContains q "bathrooms" = false →
      strContains q "garage" = false → strContains q "fireplace" = false →
      strContains q "fireplaces" = false → strContains q "pool" = true →
      t.hasCol (getActualColumnName m t "pool").1 = true →
      (handleCount q m t).1 =
        "There are " ++
          Nat.repr ((t.getCol (getActualColumnName m t "pool").1).count (Value.num 1)) ++
          " properties with a pool and " ++
          Nat.repr ((t.getCol (getActualColumnName m t "pool").1).count (Value.num 0)) ++
          " properties without a pool.") := by
  refine ⟨sum_valueCountsSorted, ?_, ?_⟩
  · intro m t feat title header unit h
    simp [countBranch, h]
  · intro q m t h1 h2 h3 h4 h5 h6 h7
    simp [handleCount, h1, h2, h3, h4, h5, h6, h7]

theorem C4_count_totals_witness :
    (countBranch [] T_bed3 "bedrooms" "Count of properties by bedroom count"
        "Count of properties by bedroom count:\n" "bedrooms").1 =
      "Count of properties by bedroom count:\n" ++
        String.join ((valueCountsSorted
            (T_bed3.getCol (getActualColumnName [] T_bed3 "bedrooms").1)).map (fun p =>
          "- " ++ p.1.render ++ " bedrooms: " ++ Nat.repr p.2 ++ " properties\n")) :=
  C4_count_totals.2.1 [] T_bed3 "bedrooms" "Count of properties by bedroom count"
    "Count of properties by bedroom count:\n" "bedrooms" (by decide)

unseal Rat.add Rat.mul Rat.sub Rat.inv in
/-- Claim C5 counterexample: a completion payload with no brace-delimited
substring is a malformed payload, yet the pipeline does not fall back to
the rule-based handler: the user sees the fixed could-not-format text
(which `app.process_query` does not treat as a failure) while
the rule-based answer for the same question would have been
`The average price is $10.00.`. -/
theorem C5_counterexample :
    appProcessQuery parseFail (.ok "hello there") "average price" [] T_price10 =
      ("I couldn" ++ apos ++ "t format the response properly.", none) ∧
    (processQuery "average price" [] T_price10).answer =
      "The average price is $10.00." := by
  decide

/-- Claim C5 (amended): a terminal timeout, a terminal connection error,
and a payload whose brace-delimited substring fails structured parsing
all make `app.process_query` fall back to the rule-based handler (the
final answer is the visualization stage applied to the rule-based answer
and request); a payload with no brace-delimited substring instead yields
the fixed could-not-format text with no chart
and no fallback. -/
theorem C5_remote_failure_fallback (parse : String → Except String QueryResponseM)
    (q : String) (m : ColumnMap) (t : Table) :
    (appProcessQuery parse .timeout q m t =
      vizStage t (processQuery q m t).answer (processQuery q m t).viz) ∧
    (∀ e, appProcessQuery parse (.connError e) q m t =
      vizStage t (processQuery q m t).answer (processQuery q m t).viz) ∧
    (∀ p js e, extractJson p = some js → parse js = .error e →
      appProcessQuery parse (.ok p) q m t =
        vizStage t (processQuery q m t).answer (processQuery q m t).viz) ∧
    (∀ p, extractJson p = none →
      appProcessQuery parse (.ok p) q m t =
        ("I couldn" ++ apos ++ "t format the response properly.", none)) := by
  refine ⟨?_, ?_, ?_, ?_⟩
  · simp [appProcessQuery, answerQuery,
      show pyStartsWith "The request timed out. The server might be busy. Please try again in a moment." "Error" = false from by decide,
      show pyStartsWith "The request timed out. The server might be busy. Please try again in a moment." "The request timed out" = true from by decide]
  · intro e
    have hs : pyStartsWith ("Error connecting to the language model server: " ++ e ++
        ". Please ensure the server is running.") "Error" = true :=
      pyStartsWith_append _ _ _ (pyStartsWith_append _ _ _ (by decide))
    simp [appProcessQuery, answerQuery, hs]
  · intro p js e hext hparse
    have hs : pyStartsWith ("Error parsing response: " ++ e) "Error" = true :=
      pyStartsWith_append _ _ _ (by decide)
    simp [appProcessQuery, answerQuery, hext, hparse, hs]
  · intro p hext
    simp [appProcessQuery, answerQuery, hext, vizStage,
      show pyStartsWith ("I couldn" ++ apos ++ "t format the response properly.") "Error" = false from by decide,
      show pyStartsWith ("I couldn" ++ apos ++ "t format the response properly.") "The request timed out" = false from by decide]

theorem C5_remote_failure_fallback_witness :
    appProcessQuery parseFail (.ok "no braces") "average price" [] T_price10 =
      ("I couldn" ++ apos ++ "t format the response properly.", none) :=
  (C5_remote_failure_fallback parseFail "average price" [] T_price10).2.2.2
    "no braces" (by decide)

unseal Rat.add Rat.mul Rat.sub Rat.inv in
/-- Claim C8: on a column of non-null numeric values the average, maximum
and minimum handlers report exactly the arithmetic mean, maximum
and minimum (the mean is the exact sum divided by the count; the reported
extremes belong to the column and bound it); the `price` property is
rendered as `$` plus a comma-separated two-decimal figure
(`450000.5` renders as `$450,000.50`), while other numeric properties use
plain two-decimal formatting with no currency symbol. -/
theorem C8_aggregates_exact_and_formatted (vs : List Value) (n : ℕ)
    (hne : vs ≠ []) (hnum : ∀ v ∈ vs, ¬ v.toQ = none) :
    (processQuery "average price" [] ⟨[("price", vs)], n⟩).answer =
      "The average price is " ++ formatAgg true (meanOpt vs) ++ "." ∧
    meanOpt vs = some ((numsOf vs).sum / ((numsOf vs).length : ℚ)) ∧
    (processQuery "maximum price" [] ⟨[("price", vs)], n⟩).answer =
      "The maximum price is " ++ formatAgg true (maxOpt vs) ++ "." ∧
    (∃ mx, maxOpt vs = some mx ∧ mx ∈ numsOf vs ∧ ∀ x ∈ numsOf vs, x ≤ mx) ∧
    (processQuery "minimum price" [] ⟨[("price", vs)], n⟩).answer =
      "The minimum price is " ++ formatAgg true (minOpt vs) ++ "." ∧
    (∃ mn, minOpt vs = some mn ∧ mn ∈ numsOf vs ∧ ∀ x ∈ numsOf vs, mn ≤ x) ∧
    (processQuery "average sqft" [] ⟨[("sqft", vs)], n⟩).answer =
      "The average sqft is " ++ formatAgg false (meanOpt vs) ++ "." ∧
    formatPrice (900001 / 2 : ℚ) = "$450,000.50" ∧
    formatNum (900001 / 2 : ℚ) = "450000.50" := by
  have hnn := numsOf_ne_nil vs hne hnum
  have hie : (numsOf vs).isEmpty = false := by
    cases hvv : numsOf vs with
    | nil => exact absurd hvv hnn
    | cons a l => rfl
  obtain ⟨mx, hmx, hmxmem, hmxall⟩ := max?_spec (numsOf vs) hnn
  obtain ⟨mn, hmn, hmnmem, hmnall⟩ := min?_spec (numsOf vs) hnn
  refine ⟨rfl, ?_, ?_, ⟨mx, hmx, hmxmem, hmxall⟩, ?_, ⟨mn, hmn, hmnmem, hmnall⟩,
    rfl, by decide, by decide⟩
  · simp [meanOpt, hie]
  · have hstep : (processQuery "maximum price" [] ⟨[("price", vs)], n⟩).answer =
        "The maximum price is " ++ formatAgg true (maxOpt vs) ++ "" ++ "." := rfl
    rw [hstep, String.append_empty]
  · have hstep : (processQuery "minimum price" [] ⟨[("price", vs)], n⟩).answer =
        "The minimum price is " ++ formatAgg true (minOpt vs) ++ "" ++ "." := rfl
    rw [hstep, String.append_empty]

theorem C8_aggregates_exact_and_formatted_witness :
    (processQuery "average price" [] ⟨[("price", [Value.num 1, Value.num 2])], 2⟩).answer =
      "The average price is " ++ formatAgg true (meanOpt [Value.num 1, Value.num 2]) ++ "." :=
  (C8_aggregates_exact_and_formatted [Value.num 1, Value.num 2] 2 (by decide)
    (by decide)).1

end CSVQA
